import Mathlib

/-!
Shallow embedding of the Conan recipe `conanfile.py` of this repository.

The recipe is a declarative manifest: a class `Conan(ConanFile)` whose body
declares the build axes (`settings`), the generator helpers (`generators`)
and the per-dependency default options (`default_options`), together with two
methods: `requirements`, which declares three dependency references via
`self.requires(...)`, and `layout`, which delegates to the external helper
`cmake_layout(self)`.

The runtime state of a recipe instance (`self`) is embedded as a structure
`Recipe`; the external primitive `self.requires(ref)` appends one dependency
declaration, and `layout` applies the external helper to the instance.
-/

/-- Runtime state of the recipe instance (`self` in the Python class).
`settings`, `generators` and `default_options` hold the class-body
attributes; `declaredRequires` accumulates the dependency references that
`self.requires(...)` declares; `conf` holds the configuration values
(operating system, compiler, build type, architecture, environment) supplied
by the external tool, which the recipe's own code never reads. -/
structure Recipe where
  settings : List String
  generators : List String
  default_options : List (String × Bool)
  declaredRequires : List String
  conf : List (String × String)
  deriving DecidableEq, Repr

/-- Class-body attribute: `settings = "os", "compiler", "build_type", "arch"`
(conanfile.py line 6). -/
def Conan.settings : List String := ["os", "compiler", "build_type", "arch"]

/-- Class-body attribute: `generators = "CMakeDeps", "CMakeToolchain"`
(conanfile.py line 7). -/
def Conan.generators : List String := ["CMakeDeps", "CMakeToolchain"]

/-- Class-body attribute: the `default_options` dictionary
(conanfile.py lines 8-12). -/
def Conan.default_options : List (String × Bool) :=
  [("gtest/*:shared", true), ("fmt/*:shared", true), ("spdlog/*:shared", true)]

/-- A fresh recipe instance as the external tool constructs it from the class
body, before any method runs: the three declarative attributes hold the
class-body values, no dependency has been declared, and `conf` holds whatever
configuration the invocation supplies. -/
def Conan.init (conf : List (String × String)) : Recipe :=
  { settings := Conan.settings
    generators := Conan.generators
    default_options := Conan.default_options
    declaredRequires := []
    conf := conf }

/-- The external primitive `self.requires(ref)`: records one dependency
declaration on the instance (the manifest gains one dependency entry). -/
def Recipe.requires (self : Recipe) (ref : String) : Recipe :=
  { self with declaredRequires := self.declaredRequires ++ [ref] }

/-- `Conan.requirements` (conanfile.py lines 14-17): declares the three
dependency references, in source order. -/
def Conan.requirements (self : Recipe) : Recipe :=
  ((self.requires "gtest/1.14.0").requires "fmt/10.2.1").requires
    "spdlog/1.14.1"

/-- `Conan.layout` (conanfile.py lines 19-20): the body is the single call
`cmake_layout(self)`. The external helper is a parameter, since it is the
external build tool's code, not this repository's. -/
def Conan.layout (cmake_layout : Recipe → Recipe) (self : Recipe) : Recipe :=
  cmake_layout self

/-- An error raised by the external package-management tool (network failure,
version conflict, ...). The recipe itself defines no error type. -/
inductive ExternalError where
  | err : String → ExternalError
  deriving DecidableEq, Repr

/-- `self.requires(ref)` in the error-aware embedding: the external tool may
reject the declaration with one of its own errors; otherwise the declaration
is recorded exactly as in `Recipe.requires`. -/
def Recipe.requiresE (self : Recipe) (ext : String → Except ExternalError Unit)
    (ref : String) : Except ExternalError Recipe :=
  match ext ref with
  | .error e => .error e
  | .ok _ => .ok (self.requires ref)

/-- `Conan.requirements` in the error-aware embedding: the three `requires`
calls run in source order, stopping at the first external error. The method
body itself contains no try/except, no raise, and no error branch. -/
def Conan.requirementsE (ext : String → Except ExternalError Unit)
    (self : Recipe) : Except ExternalError Recipe :=
  match self.requiresE ext "gtest/1.14.0" with
  | .error e => .error e
  | .ok r1 =>
    match r1.requiresE ext "fmt/10.2.1" with
    | .error e => .error e
    | .ok r2 => r2.requiresE ext "spdlog/1.14.1"

/-- `Conan.layout` in the error-aware embedding: the body is the single call
`cmake_layout(self)`, so the method can only fail if the external helper
does. -/
def Conan.layoutE (cmake_layout : Recipe → Except ExternalError Recipe)
    (self : Recipe) : Except ExternalError Recipe :=
  cmake_layout self

/-- The package name of a dependency reference `"name/version"`: the part
before the first slash. -/
def refName (ref : String) : String :=
  ⟨ref.data.takeWhile (fun c => c ≠ '/')⟩

/-- The version of a dependency reference `"name/version"`: the part after
the first slash. -/
def refVersion (ref : String) : String :=
  ⟨(ref.data.dropWhile (fun c => c ≠ '/')).drop 1⟩

/-- The dependency references `requirements` declares on a fresh instance. -/
def Conan.declaredRefs : List String :=
  (Conan.requirements (Conan.init [])).declaredRequires

/-- The (name, version) pairs pinned by `requirements`. -/
def Conan.pinned : List (String × String) :=
  Conan.declaredRefs.map (fun r => (refName r, refVersion r))

/-- Modelled from the spec: the external tool's option keys of the form
`"name/*:shared"` target the package `name`, the `*` standing for any
version. `optionTarget` extracts that package name from such a key. -/
def optionTarget (key : String) : Option String :=
  if "/*:shared".data.isSuffixOf key.data
  then some ⟨key.data.take (key.data.length - 9)⟩ else none

/-- Modelled from the spec: a wildcard option key `"name/*:shared"` applies
to a resolved reference exactly when the reference's package name is `name`,
whatever its version. -/
def optionApplies (key ref : String) : Bool :=
  match optionTarget key with
  | some name => refName ref == name
  | none => false

/-- Substring test on character lists, used to state that no pinned version
string occurs inside any option key. -/
def containsSub (hay needle : List Char) : Bool :=
  match hay with
  | [] => needle.isEmpty
  | _ :: t => needle.isPrefixOf hay || containsSub t needle

/-- The declarative attributes and declared dependencies of two recipe
states coincide. -/
def sameDeclarative (s t : Recipe) : Prop :=
  s.settings = t.settings ∧ s.generators = t.generators ∧
    s.default_options = t.default_options ∧
    s.declaredRequires = t.declaredRequires

/-! ### Helper lemmas -/

/-- `takeWhile` on a list whose prefix satisfies `p` and whose next element
does not returns exactly that prefix. -/
theorem takeWhile_append_of_stop (p : Char → Bool) (pre : List Char)
    (hpre : pre.all p = true) (c : Char) (hc : p c = false) (rest : List Char) :
    (pre ++ c :: rest).takeWhile p = pre := by
  induction pre with
  | nil => simp [List.takeWhile_cons, hc]
  | cons a t ih =>
    simp only [List.all_cons, Bool.and_eq_true] at hpre
    simp [List.takeWhile_cons, hpre.1, ih hpre.2]

/-- The package name of a reference `"gtest/" ++ v` is `"gtest"`, whatever
the version string `v`. -/
theorem refName_gtest (v : String) : refName ("gtest/" ++ v) = "gtest" := by
  unfold refName
  rw [String.data_append]
  have h : "gtest/".data ++ v.data = ['g','t','e','s','t'] ++ '/' :: v.data := by
    rfl
  rw [h, takeWhile_append_of_stop _ _ (by decide) _ (by decide)]

/-- The package name of a reference `"fmt/" ++ v` is `"fmt"`, whatever the
version string `v`. -/
theorem refName_fmt (v : String) : refName ("fmt/" ++ v) = "fmt" := by
  unfold refName
  rw [String.data_append]
  have h : "fmt/".data ++ v.data = ['f','m','t'] ++ '/' :: v.data := by rfl
  rw [h, takeWhile_append_of_stop _ _ (by decide) _ (by decide)]

/-- The package name of a reference `"spdlog/" ++ v` is `"spdlog"`, whatever
the version string `v`. -/
theorem refName_spdlog (v : String) : refName ("spdlog/" ++ v) = "spdlog" := by
  unfold refName
  rw [String.data_append]
  have h : "spdlog/".data ++ v.data = ['s','p','d','l','o','g'] ++ '/' :: v.data := by
    rfl
  rw [h, takeWhile_append_of_stop _ _ (by decide) _ (by decide)]

/-- If the error-aware `requires` fails, the external tool rejected that very
reference. -/
theorem requiresE_error (self : Recipe) (ext : String → Except ExternalError Unit)
    (ref : String) (e : ExternalError) :
    Recipe.requiresE self ext ref = .error e → ext ref = .error e := by
  unfold Recipe.requiresE
  intro he
  split at he
  case _ e1 h => injection he with h2; rw [h, h2]
  case _ u h => exact absurd he (by simp)

/-- `requirements` appends exactly the three references of the source, in
source order, to whatever was already declared. -/
theorem requirements_declaredRequires (r : Recipe) :
    (Conan.requirements r).declaredRequires =
      r.declaredRequires ++ ["gtest/1.14.0", "fmt/10.2.1", "spdlog/1.14.1"] := by
  simp [Conan.requirements, Recipe.requires]

/-! ### Claim theorems -/

/-- Claim C1: each of the three declared dependencies is pinned to its
expected version: gtest to 1.14.0, fmt to 10.2.1, spdlog to 1.14.1. -/
theorem c1_pinned_versions :
    List.lookup "gtest" Conan.pinned = some "1.14.0" ∧
    List.lookup "fmt" Conan.pinned = some "10.2.1" ∧
    List.lookup "spdlog" Conan.pinned = some "1.14.1" := by decide

/-- Claim C2: for each of the three dependencies, the default options set the
shared-build option to true, and every entry of the mapping is true. -/
theorem c2_shared_options :
    List.lookup "gtest/*:shared" Conan.default_options = some true ∧
    List.lookup "fmt/*:shared" Conan.default_options = some true ∧
    List.lookup "spdlog/*:shared" Conan.default_options = some true ∧
    Conan.default_options.all (fun p => p.2) = true := by decide

/-- Claim C3: the declared build axes form exactly the set
{os, compiler, build_type, arch}: none missing, none extra, none repeated. -/
theorem c3_settings_axes :
    Conan.settings.toFinset =
      ({"os", "compiler", "build_type", "arch"} : Finset String) ∧
    Conan.settings.Nodup := by decide

/-- Claim C4: on a fresh instance, whatever the supplied configuration,
running requirements declares exactly three dependency entries, one per
package gtest, fmt and spdlog. -/
theorem c4_exactly_three_deps (conf : List (String × String)) :
    (Conan.requirements (Conan.init conf)).declaredRequires.length = 3 ∧
    (Conan.requirements (Conan.init conf)).declaredRequires.map refName =
      ["gtest", "fmt", "spdlog"] := ⟨rfl, rfl⟩

/-- Claim C5: the manifest declares exactly the two standard generator
helpers CMakeDeps and CMakeToolchain, and no others. -/
theorem c5_generators :
    Conan.generators = ["CMakeDeps", "CMakeToolchain"] ∧
    Conan.generators.length = 2 := by decide

/-- Claim C6: layout contains no logic of its own: for every external helper
and every instance, it is exactly the helper applied to the unchanged
instance. -/
theorem c6_layout_delegates (cmake_layout : Recipe → Recipe) (self : Recipe) :
    Conan.layout cmake_layout self = cmake_layout self := rfl

/-- Claim C10: requirements is deterministic: for any two invocations, on any
two instances (any configuration values, any prior state), the entries it
adds are the same three references in the same order, unconditionally. -/
theorem c10_requirements_deterministic (r1 r2 : Recipe) :
    (Conan.requirements r1).declaredRequires.drop r1.declaredRequires.length =
      (Conan.requirements r2).declaredRequires.drop
        r2.declaredRequires.length ∧
    (Conan.requirements r1).declaredRequires.drop r1.declaredRequires.length =
      ["gtest/1.14.0", "fmt/10.2.1", "spdlog/1.14.1"] := by
  constructor <;> simp [requirements_declaredRequires, List.drop_left]

/-- Claim C7: neither requirements nor layout raises an error of this
repository's own: on any instance, any failure of requirements is the
external tool rejecting one of the three declared references; when the
external tool accepts every declaration, requirements succeeds with no error
branch of its own; and layout can only fail if the external helper does. -/
theorem c7_errors_external :
    (∀ (ext : String → Except ExternalError Unit) (self : Recipe)
        (e : ExternalError),
        Conan.requirementsE ext self = .error e →
        ∃ ref ∈ Conan.declaredRefs, ext ref = .error e) ∧
    (∀ (ext : String → Except ExternalError Unit) (self : Recipe),
        (∀ ref, ext ref = .ok ()) →
        Conan.requirementsE ext self = .ok (Conan.requirements self)) ∧
    (∀ (cmake_layout : Recipe → Except ExternalError Recipe) (self : Recipe)
        (e : ExternalError),
        Conan.layoutE cmake_layout self = .error e →
        cmake_layout self = .error e) := by
  refine ⟨?_, ?_, ?_⟩
  · intro ext self e h
    unfold Conan.requirementsE at h
    split at h
    case _ e1 hg =>
      injection h with h2
      exact ⟨"gtest/1.14.0", by decide, h2 ▸ requiresE_error _ _ _ _ hg⟩
    case _ r1 hg =>
      split at h
      case _ e1 hf =>
        injection h with h2
        exact ⟨"fmt/10.2.1", by decide, h2 ▸ requiresE_error _ _ _ _ hf⟩
      case _ r2 hf =>
        exact ⟨"spdlog/1.14.1", by decide, requiresE_error _ _ _ _ h⟩
  · intro ext self hok
    simp [Conan.requirementsE, Recipe.requiresE, hok, Conan.requirements]
  · intro cmake_layout self e h
    exact h

theorem c7_errors_external_witness :
    ∃ ref ∈ Conan.declaredRefs,
      (fun _ : String =>
        (Except.error (ExternalError.err "network") :
          Except ExternalError Unit)) ref =
        Except.error (ExternalError.err "network") :=
  c7_errors_external.1
    (fun _ => Except.error (ExternalError.err "network"))
    (Conan.init []) (ExternalError.err "network") rfl

/-- Claim C8: evaluating the manifest does not mutate its declarative state:
after requirements and layout run (the latter with any external helper that
leaves the declarative attributes alone), settings, generators and
default_options still hold exactly the class-body values, and the only change
is the three added dependency entries. -/
theorem c8_frame (cmake_layout : Recipe → Recipe)
    (hcl : ∀ r, sameDeclarative (cmake_layout r) r)
    (conf : List (String × String)) :
    (Conan.layout cmake_layout
        (Conan.requirements (Conan.init conf))).settings = Conan.settings ∧
    (Conan.layout cmake_layout
        (Conan.requirements (Conan.init conf))).generators = Conan.generators ∧
    (Conan.layout cmake_layout
        (Conan.requirements (Conan.init conf))).default_options
      = Conan.default_options ∧
    (Conan.layout cmake_layout
        (Conan.requirements (Conan.init conf))).declaredRequires
      = ["gtest/1.14.0", "fmt/10.2.1", "spdlog/1.14.1"] := by
  obtain ⟨h1, h2, h3, h4⟩ := hcl (Conan.requirements (Conan.init conf))
  exact ⟨h1.trans rfl, h2.trans rfl, h3.trans rfl, h4.trans rfl⟩

theorem c8_frame_witness :
    (Conan.layout id (Conan.requirements (Conan.init []))).settings
        = Conan.settings ∧
    (Conan.layout id (Conan.requirements (Conan.init []))).generators
        = Conan.generators ∧
    (Conan.layout id (Conan.requirements (Conan.init []))).default_options
        = Conan.default_options ∧
    (Conan.layout id (Conan.requirements (Conan.init []))).declaredRequires
        = ["gtest/1.14.0", "fmt/10.2.1", "spdlog/1.14.1"] :=
  c8_frame id (fun _ => ⟨rfl, rfl, rfl, rfl⟩) []

/-- Claim C9: every shared-linkage option key is the wildcard pattern
name/*:shared for the corresponding declared package, the key applies to a
reference of that package whatever version string the resolver selects, and
no pinned version string occurs inside any option key. -/
theorem c9_wildcard_options :
    Conan.default_options.map Prod.fst =
      (Conan.declaredRefs.map refName).map (fun n => n ++ "/*:shared") ∧
    (∀ v, optionApplies "gtest/*:shared" ("gtest/" ++ v) = true) ∧
    (∀ v, optionApplies "fmt/*:shared" ("fmt/" ++ v) = true) ∧
    (∀ v, optionApplies "spdlog/*:shared" ("spdlog/" ++ v) = true) ∧
    (Conan.default_options.map Prod.fst).all
      (fun k => Conan.pinned.all
        (fun p => !containsSub k.data p.2.data)) = true := by
  refine ⟨by decide, ?_, ?_, ?_, by decide⟩
  · intro v
    unfold optionApplies
    rw [show optionTarget "gtest/*:shared" = some "gtest" from by decide,
      refName_gtest]
    rfl
  · intro v
    unfold optionApplies
    rw [show optionTarget "fmt/*:shared" = some "fmt" from by decide,
      refName_fmt]
    rfl
  · intro v
    unfold optionApplies
    rw [show optionTarget "spdlog/*:shared" = some "spdlog" from by decide,
      refName_spdlog]
    rfl
